import Mathlib

/-!
Shallow embedding of the markyp-rss element module (`markyp_rss/elements.py`).

The RSS 2.0 element classes become Lean structures, and each `__str__`
method becomes a pure string-valued function on the corresponding
structure.  Python `Optional` fields become `Option` fields, Python lists
become Lean lists, and the two utilities imported from the external
`markyp` package (`xml_escape` and `format_properties`) are modelled from
the collaborator contract given in the specification, since their code is
not part of this repository.
-/

/-- Modelled from the spec: one character of the `xml_escape` external
collaborator contract (spec section 4.1): `&` becomes `&amp;`, `<` becomes
`&lt;`, `>` becomes `&gt;`, and every other character is kept unchanged. -/
def escapeChar (c : Char) : String :=
  if c = '&' then "&amp;"
  else if c = '<' then "&lt;"
  else if c = '>' then "&gt;"
  else String.singleton c

/-- Modelled from the spec: the `xml_escape` external collaborator of spec
section 4.1 (`markyp.formatters.xml_escape`, not part of this repository).
The contract replaces `&` first and then `<` and `>`; because the inserted
entities are never rescanned, this is exactly a single left-to-right pass
mapping each character independently. -/
def xml_escape (s : String) : String :=
  String.join (s.data.map escapeChar)

/-- Modelled from the spec: the `format_properties` external collaborator of
spec section 4.1 (`markyp.formatters.format_properties`, not part of this
repository): name-value pairs rendered as `name="value"`, joined by single
spaces, preserving order; numeric values are passed in already converted to
decimal text. -/
def format_properties (props : List (String × String)) : String :=
  String.intercalate " " (props.map (fun p => p.1 ++ "=\"" ++ p.2 ++ "\""))

/-- Embeds the Python idiom used by every renderer of the module:
joining a list of rendered lines with the line break character,
as in the final statement of each multi-line `__str__` method. -/
def joinln : List String → String
  | [] => ""
  | [a] => a
  | a :: b :: rest => a ++ "\n" ++ joinln (b :: rest)

/-- The `Category` class (`elements.py` lines 14-38). -/
structure Category where
  value : String
  domain : Option String

/-- The `Cloud` class (`elements.py` lines 41-69). -/
structure Cloud where
  domain : String
  port : Int
  path : String
  register_procedure : String
  protocol : String

/-- The `Enclosure` class (`elements.py` lines 72-103). -/
structure Enclosure where
  url : String
  length : Int
  type : String

/-- The `GUID` class (`elements.py` lines 106-129). -/
structure GUID where
  value : String
  is_perma_link : Bool

/-- The `Image` class (`elements.py` lines 132-161). -/
structure Image where
  url : Option String
  title : Option String
  link : Option String

/-- The `Source` class (`elements.py` lines 164-187). -/
structure Source where
  url : String
  value : String

/-- The `Item` class (`elements.py` lines 190-319).  The Python attribute
`_categories` is called `categories` here. -/
structure Item where
  title : String
  link : String
  description : Option String
  author : Option String
  categories : List Category
  comments : Option String
  enclosure : Option Enclosure
  guid : Option GUID
  pub_date : Option String
  source : Option Source

/-- The `Channel` class (`elements.py` lines 322-538).  The Python
attributes `_categories` and `_items` are called `categories` and `items`
here. -/
structure Channel where
  title : String
  link : String
  description : String
  language : Option String
  copyright : Option String
  managing_editor : Option String
  web_master : Option String
  pub_date : Option String
  last_build_date : Option String
  generator : Option String
  docs : Option String
  cloud : Option Cloud
  ttl : Option Int
  image : Option Image
  categories : List Category
  items : List Item

/-- The `RSS` class (`elements.py` lines 541-559). -/
structure RSS where
  channel : Channel

/-- Embeds `Category.__str__` (`elements.py` lines 36-38).  The attribute
is guarded by a Python truthiness test on `self.domain`, so it is absent
both when the field is `None` and when it is the empty string. -/
def Category.toMarkup (c : Category) : String :=
  let domain :=
    match c.domain with
    | some d => if d = "" then "" else " domain=\"" ++ d ++ "\""
    | none => ""
  "<category" ++ domain ++ ">" ++ xml_escape c.value ++ "</category>"

/-- Embeds `Cloud.__str__` (`elements.py` lines 61-69). -/
def Cloud.toMarkup (c : Cloud) : String :=
  "<cloud " ++ format_properties
    [("domain", c.domain), ("port", toString c.port), ("path", c.path),
     ("registerProcedure", c.register_procedure), ("protocol", c.protocol)] ++ "/>"

/-- Embeds `Enclosure.__str__` (`elements.py` lines 97-103). -/
def Enclosure.toMarkup (e : Enclosure) : String :=
  "<enclosure " ++ format_properties
    [("url", e.url), ("length", toString e.length), ("type", e.type)] ++ "/>"

/-- Embeds `GUID.__str__` (`elements.py` lines 127-129). -/
def GUID.toMarkup (g : GUID) : String :=
  let is_perma_link := if g.is_perma_link then "true" else "false"
  "<guid isPermaLink=\"" ++ is_perma_link ++ "\">" ++ xml_escape g.value ++ "</guid>"

/-- Embeds the conditional `items.append` pattern of the multi-line
renderers: the line produced from one optional field, present exactly when
the field is not `None`. -/
def ifSome {α : Type} (o : Option α) (f : α → String) : List String :=
  match o with
  | some a => [f a]
  | none => []

/-- Embeds the `items` list built by `Image.__str__`
(`elements.py` lines 152-161). -/
def Image.renderLines (i : Image) : List String :=
  ["<image>"]
    ++ ifSome i.title (fun t => "<title>" ++ xml_escape t ++ "</title>")
    ++ ifSome i.url (fun u => "<url>" ++ xml_escape u ++ "</url>")
    ++ ifSome i.link (fun l => "<link>" ++ xml_escape l ++ "</link>")
    ++ ["</image>"]

/-- Embeds `Image.__str__`: the collected lines joined with line breaks. -/
def Image.toMarkup (i : Image) : String :=
  joinln (Image.renderLines i)

/-- Embeds `Source.__str__` (`elements.py` lines 185-187).  Note that the
source code escapes the value twice: line 186 binds the local `value` to
`xml_escape(self.value)`, and the f-string of line 187 applies `xml_escape`
to that local a second time.  The `is not None` test of line 186 has no
counterpart here because the field is a mandatory string. -/
def Source.toMarkup (s : Source) : String :=
  let value := xml_escape s.value
  "<source url=\"" ++ s.url ++ "\">" ++ xml_escape value ++ "</source>"

/-- Embeds the `items` list built by `Item.__str__`
(`elements.py` lines 257-282). -/
def Item.renderLines (i : Item) : List String :=
  ["<item>",
   "<title>" ++ xml_escape i.title ++ "</title>",
   "<link>" ++ xml_escape i.link ++ "</link>"]
    ++ ifSome i.description (fun s => "<description>" ++ xml_escape s ++ "</description>")
    ++ ifSome i.author (fun s => "<author>" ++ xml_escape s ++ "</author>")
    ++ ifSome i.comments (fun s => "<comments>" ++ xml_escape s ++ "</comments>")
    ++ ifSome i.enclosure Enclosure.toMarkup
    ++ ifSome i.guid GUID.toMarkup
    ++ ifSome i.pub_date (fun s => "<pubDate>" ++ xml_escape s ++ "</pubDate>")
    ++ ifSome i.source Source.toMarkup
    ++ i.categories.map Category.toMarkup
    ++ ["</item>"]

/-- Embeds `Item.__str__`: the collected lines joined with line breaks. -/
def Item.toMarkup (i : Item) : String :=
  joinln (Item.renderLines i)

/-- Embeds the `items` list built by `Channel.__str__`
(`elements.py` lines 429-464). -/
def Channel.renderLines (c : Channel) : List String :=
  ["<channel>",
   "<title>" ++ xml_escape c.title ++ "</title>",
   "<link>" ++ xml_escape c.link ++ "</link>",
   "<description>" ++ xml_escape c.description ++ "</description>"]
    ++ ifSome c.language (fun s => "<language>" ++ xml_escape s ++ "</language>")
    ++ ifSome c.copyright (fun s => "<copyright>" ++ xml_escape s ++ "</copyright>")
    ++ ifSome c.managing_editor (fun s => "<managingEditor>" ++ xml_escape s ++ "</managingEditor>")
    ++ ifSome c.web_master (fun s => "<webMaster>" ++ xml_escape s ++ "</webMaster>")
    ++ ifSome c.pub_date (fun s => "<pubDate>" ++ xml_escape s ++ "</pubDate>")
    ++ ifSome c.last_build_date (fun s => "<lastBuildDate>" ++ xml_escape s ++ "</lastBuildDate>")
    ++ ifSome c.generator (fun s => "<generator>" ++ xml_escape s ++ "</generator>")
    ++ ifSome c.docs (fun s => "<docs>" ++ xml_escape s ++ "</docs>")
    ++ ifSome c.ttl (fun t => "<ttl>" ++ toString t ++ "</ttl>")
    ++ ifSome c.cloud Cloud.toMarkup
    ++ ifSome c.image Image.toMarkup
    ++ c.categories.map Category.toMarkup
    ++ c.items.map Item.toMarkup
    ++ ["</channel>"]

/-- Embeds `Channel.__str__`: the collected lines joined with line breaks. -/
def Channel.toMarkup (c : Channel) : String :=
  joinln (Channel.renderLines c)

/-- Embeds `RSS.__str__` (`elements.py` lines 558-559). -/
def RSS.toMarkup (r : RSS) : String :=
  "<rss version=\"2.0\">\n" ++ Channel.toMarkup r.channel ++ "\n</rss>"

/-- Embeds `Item.add_category` (`elements.py` lines 284-296): appends one
category; the returned value is the receiver in its post-call state. -/
def Item.add_category (i : Item) (category : Category) : Item :=
  { i with categories := i.categories ++ [category] }

/-- Embeds `Item.add_categories` (`elements.py` lines 298-307): extends the
category list with the received categories, returning the receiver. -/
def Item.add_categories (i : Item) (cats : List Category) : Item :=
  { i with categories := i.categories ++ cats }

/-- Embeds `Item.set_categories` (`elements.py` lines 309-319): clears the
category list and then extends it with the received categories, returning
the receiver. -/
def Item.set_categories (i : Item) (cats : List Category) : Item :=
  { i with categories := cats }

/-- Embeds `Channel.add_category` (`elements.py` lines 466-478). -/
def Channel.add_category (c : Channel) (category : Category) : Channel :=
  { c with categories := c.categories ++ [category] }

/-- Embeds `Channel.add_categories` (`elements.py` lines 480-489). -/
def Channel.add_categories (c : Channel) (cats : List Category) : Channel :=
  { c with categories := c.categories ++ cats }

/-- Embeds `Channel.add_item` (`elements.py` lines 491-503). -/
def Channel.add_item (c : Channel) (item : Item) : Channel :=
  { c with items := c.items ++ [item] }

/-- Embeds `Channel.add_items` (`elements.py` lines 505-514). -/
def Channel.add_items (c : Channel) (its : List Item) : Channel :=
  { c with items := c.items ++ its }

/-- Embeds `Channel.set_categories` (`elements.py` lines 516-526). -/
def Channel.set_categories (c : Channel) (cats : List Category) : Channel :=
  { c with categories := cats }

/-- Embeds `Channel.set_items` (`elements.py` lines 528-538). -/
def Channel.set_items (c : Channel) (its : List Item) : Channel :=
  { c with items := its }

/-- Embeds a call of `Category.__str__` as an explicit state transformer.
The method body only reads fields and locals (it performs no attribute
assignment), so the receiver state after the call is the state before it. -/
def Category.render (c : Category) : String × Category :=
  (Category.toMarkup c, c)

/-- Embeds a call of `Cloud.__str__` as an explicit state transformer;
the body performs no attribute assignment. -/
def Cloud.render (c : Cloud) : String × Cloud :=
  (Cloud.toMarkup c, c)

/-- Embeds a call of `Enclosure.__str__` as an explicit state transformer;
the body performs no attribute assignment. -/
def Enclosure.render (e : Enclosure) : String × Enclosure :=
  (Enclosure.toMarkup e, e)

/-- Embeds a call of `GUID.__str__` as an explicit state transformer;
the body performs no attribute assignment. -/
def GUID.render (g : GUID) : String × GUID :=
  (GUID.toMarkup g, g)

/-- Embeds a call of `Image.__str__` as an explicit state transformer;
the body mutates only the local `items` list. -/
def Image.render (i : Image) : String × Image :=
  (Image.toMarkup i, i)

/-- Embeds a call of `Source.__str__` as an explicit state transformer;
the body performs no attribute assignment. -/
def Source.render (s : Source) : String × Source :=
  (Source.toMarkup s, s)

/-- Embeds a call of `Item.__str__` as an explicit state transformer;
the body mutates only the local `items` list. -/
def Item.render (i : Item) : String × Item :=
  (Item.toMarkup i, i)

/-- Embeds a call of `Channel.__str__` as an explicit state transformer;
the body mutates only the local `items` list. -/
def Channel.render (c : Channel) : String × Channel :=
  (Channel.toMarkup c, c)

/-- Embeds a call of `RSS.__str__` as an explicit state transformer;
the body performs no attribute assignment. -/
def RSS.render (r : RSS) : String × RSS :=
  (RSS.toMarkup r, r)

/-- Stated from the spec (section 4.3): the image line sequence as an
ordered sequence of optional fragments, the absent ones filtered out, in
the fixed order title, url, link. -/
def Image.specLines (i : Image) : List String :=
  ["<image>"]
    ++ List.filterMap id
        [i.title.map (fun t => "<title>" ++ xml_escape t ++ "</title>"),
         i.url.map (fun u => "<url>" ++ xml_escape u ++ "</url>"),
         i.link.map (fun l => "<link>" ++ xml_escape l ++ "</link>")]
    ++ ["</image>"]

/-- Stated from the spec: the image rendering as the filtered fragment
sequence joined with line breaks. -/
def Image.specMarkup (i : Image) : String :=
  joinln (Image.specLines i)

/-- Stated from the spec (section 4.4): the item line sequence as an
ordered sequence of optional fragments, the absent ones filtered out, in
the fixed order title, link, description, author, comments, enclosure,
guid, pubDate, source, and then the categories in list order. -/
def Item.specLines (i : Item) : List String :=
  ["<item>",
   "<title>" ++ xml_escape i.title ++ "</title>",
   "<link>" ++ xml_escape i.link ++ "</link>"]
    ++ List.filterMap id
        [i.description.map (fun s => "<description>" ++ xml_escape s ++ "</description>"),
         i.author.map (fun s => "<author>" ++ xml_escape s ++ "</author>"),
         i.comments.map (fun s => "<comments>" ++ xml_escape s ++ "</comments>"),
         i.enclosure.map Enclosure.toMarkup,
         i.guid.map GUID.toMarkup,
         i.pub_date.map (fun s => "<pubDate>" ++ xml_escape s ++ "</pubDate>"),
         i.source.map Source.toMarkup]
    ++ i.categories.map Category.toMarkup
    ++ ["</item>"]

/-- Stated from the spec: the item rendering as the filtered fragment
sequence joined with line breaks. -/
def Item.specMarkup (i : Item) : String :=
  joinln (Item.specLines i)

/-- Stated from the spec (section 4.5): the channel line sequence as an
ordered sequence of optional fragments, the absent ones filtered out, in
the fixed order title, link, description, language, copyright,
managingEditor, webMaster, pubDate, lastBuildDate, generator, docs, ttl,
cloud, image, then the categories and then the items, each in list order. -/
def Channel.specLines (c : Channel) : List String :=
  ["<channel>",
   "<title>" ++ xml_escape c.title ++ "</title>",
   "<link>" ++ xml_escape c.link ++ "</link>",
   "<description>" ++ xml_escape c.description ++ "</description>"]
    ++ List.filterMap id
        [c.language.map (fun s => "<language>" ++ xml_escape s ++ "</language>"),
         c.copyright.map (fun s => "<copyright>" ++ xml_escape s ++ "</copyright>"),
         c.managing_editor.map (fun s => "<managingEditor>" ++ xml_escape s ++ "</managingEditor>"),
         c.web_master.map (fun s => "<webMaster>" ++ xml_escape s ++ "</webMaster>"),
         c.pub_date.map (fun s => "<pubDate>" ++ xml_escape s ++ "</pubDate>"),
         c.last_build_date.map (fun s => "<lastBuildDate>" ++ xml_escape s ++ "</lastBuildDate>"),
         c.generator.map (fun s => "<generator>" ++ xml_escape s ++ "</generator>"),
         c.docs.map (fun s => "<docs>" ++ xml_escape s ++ "</docs>"),
         c.ttl.map (fun t => "<ttl>" ++ toString t ++ "</ttl>"),
         c.cloud.map Cloud.toMarkup,
         c.image.map Image.toMarkup]
    ++ c.categories.map Category.toMarkup
    ++ c.items.map Item.toMarkup
    ++ ["</channel>"]

/-- Stated from the spec: the channel rendering as the filtered fragment
sequence joined with line breaks. -/
def Channel.specMarkup (c : Channel) : String :=
  joinln (Channel.specLines c)

theorem ifSome_eq {α : Type} (o : Option α) (f : α → String) :
    ifSome o f = (o.map f).toList := by
  cases o <;> rfl

theorem filterMap_id_cons {α : Type} (x : Option α) (xs : List (Option α)) :
    List.filterMap id (x :: xs) = x.toList ++ List.filterMap id xs := by
  cases x <;> simp

theorem mem_ifSome {α : Type} {l : String} {o : Option α} {f : α → String} :
    l ∈ ifSome o f ↔ ∃ a, o = some a ∧ l = f a := by
  cases o <;> simp [ifSome]

theorem image_lines_eq (i : Image) : Image.renderLines i = Image.specLines i := by
  simp [Image.renderLines, Image.specLines, ifSome_eq, filterMap_id_cons, List.append_assoc]

theorem item_lines_eq (i : Item) : Item.renderLines i = Item.specLines i := by
  simp [Item.renderLines, Item.specLines, ifSome_eq, filterMap_id_cons, List.append_assoc]

theorem channel_lines_eq (c : Channel) : Channel.renderLines c = Channel.specLines c := by
  simp [Channel.renderLines, Channel.specLines, ifSome_eq, filterMap_id_cons, List.append_assoc]

theorem cat_not_pref (x y : Char) (zs : List Char) (h : ¬ (x = 'c' ∧ y = 'a')) :
    ¬ (("<category" : String).data <+: '<' :: x :: y :: zs) := by
  intro hp
  have hc : ("<category" : String).data = '<' :: 'c' :: 'a' :: ("tegory" : String).data := rfl
  rw [hc, List.cons_prefix_cons] at hp
  obtain ⟨-, hp⟩ := hp
  rw [List.cons_prefix_cons] at hp
  obtain ⟨h1, hp⟩ := hp
  rw [List.cons_prefix_cons] at hp
  exact h ⟨h1.symm, hp.1.symm⟩

theorem item_not_pref (x y : Char) (zs : List Char) (h : ¬ (x = 'i' ∧ y = 't')) :
    ¬ (("<item>" : String).data <+: '<' :: x :: y :: zs) := by
  intro hp
  have hc : ("<item>" : String).data = '<' :: 'i' :: 't' :: ("em>" : String).data := rfl
  rw [hc, List.cons_prefix_cons] at hp
  obtain ⟨-, hp⟩ := hp
  rw [List.cons_prefix_cons] at hp
  obtain ⟨h1, hp⟩ := hp
  rw [List.cons_prefix_cons] at hp
  exact h ⟨h1.symm, hp.1.symm⟩

theorem joinln_cons_cons (a b : String) (rest : List String) :
    joinln (a :: b :: rest) = a ++ ("\n" ++ joinln (b :: rest)) :=
  String.append_assoc a "\n" (joinln (b :: rest))

theorem no_pref_joinln (p a : String) (rest : List String)
    (h0 : ¬ (p.data <+: a.data))
    (h : ∀ t : String, ¬ (p.data <+: (a ++ t).data)) :
    ¬ (p.data <+: (joinln (a :: rest)).data) := by
  cases rest with
  | nil => exact h0
  | cons b bs =>
      rw [joinln_cons_cons]
      exact h ("\n" ++ joinln (b :: bs))

theorem item_lines_catfree (i : Item) :
    ∀ l ∈ Item.renderLines (Item.set_categories i []),
      ¬ (("<category" : String).data <+: l.data) := by
  intro l hl
  simp only [Item.set_categories, Item.renderLines, List.mem_append, List.mem_cons,
    List.mem_singleton, mem_ifSome, List.mem_map, List.map_nil, List.not_mem_nil,
    or_false, false_or, or_assoc] at hl
  rcases hl with rfl | rfl | rfl | ⟨a, -, rfl⟩ | ⟨a, -, rfl⟩ | ⟨a, -, rfl⟩ | ⟨a, -, rfl⟩ |
    ⟨a, -, rfl⟩ | ⟨a, -, rfl⟩ | ⟨a, -, rfl⟩ | rfl
  · decide
  · simp only [String.data_append]
    exact cat_not_pref 't' 'i' _ (by decide)
  · simp only [String.data_append]
    exact cat_not_pref 'l' 'i' _ (by decide)
  · simp only [String.data_append]
    exact cat_not_pref 'd' 'e' _ (by decide)
  · simp only [String.data_append]
    exact cat_not_pref 'a' 'u' _ (by decide)
  · simp only [String.data_append]
    exact cat_not_pref 'c' 'o' _ (by decide)
  · simp only [Enclosure.toMarkup, String.data_append]
    exact cat_not_pref 'e' 'n' _ (by decide)
  · simp only [GUID.toMarkup, String.data_append]
    exact cat_not_pref 'g' 'u' _ (by decide)
  · simp only [String.data_append]
    exact cat_not_pref 'p' 'u' _ (by decide)
  · simp only [Source.toMarkup, String.data_append]
    exact cat_not_pref 's' 'o' _ (by decide)
  · decide

theorem channel_lines_catfree (ch : Channel) :
    ∀ l ∈ Channel.renderLines (Channel.set_categories ch []),
      ¬ (("<category" : String).data <+: l.data) := by
  intro l hl
  simp only [Channel.set_categories, Channel.renderLines, List.mem_append, List.mem_cons,
    List.mem_singleton, mem_ifSome, List.mem_map, List.map_nil, List.not_mem_nil,
    or_false, false_or, or_assoc] at hl
  rcases hl with rfl | rfl | rfl | rfl | ⟨a, -, rfl⟩ | ⟨a, -, rfl⟩ | ⟨a, -, rfl⟩ |
    ⟨a, -, rfl⟩ | ⟨a, -, rfl⟩ | ⟨a, -, rfl⟩ | ⟨a, -, rfl⟩ | ⟨a, -, rfl⟩ | ⟨a, -, rfl⟩ |
    ⟨a, -, rfl⟩ | ⟨a, -, rfl⟩ | ⟨a, -, rfl⟩ | rfl
  · decide
  · simp only [String.data_append]
    exact cat_not_pref 't' 'i' _ (by decide)
  · simp only [String.data_append]
    exact cat_not_pref 'l' 'i' _ (by decide)
  · simp only [String.data_append]
    exact cat_not_pref 'd' 'e' _ (by decide)
  · simp only [String.data_append]
    exact cat_not_pref 'l' 'a' _ (by decide)
  · simp only [String.data_append]
    exact cat_not_pref 'c' 'o' _ (by decide)
  · simp only [String.data_append]
    exact cat_not_pref 'm' 'a' _ (by decide)
  · simp only [String.data_append]
    exact cat_not_pref 'w' 'e' _ (by decide)
  · simp only [String.data_append]
    exact cat_not_pref 'p' 'u' _ (by decide)
  · simp only [String.data_append]
    exact cat_not_pref 'l' 'a' _ (by decide)
  · simp only [String.data_append]
    exact cat_not_pref 'g' 'e' _ (by decide)
  · simp only [String.data_append]
    exact cat_not_pref 'd' 'o' _ (by decide)
  · simp only [String.data_append]
    exact cat_not_pref 't' 't' _ (by decide)
  · simp only [Cloud.toMarkup, String.data_append]
    exact cat_not_pref 'c' 'l' _ (by decide)
  · exact no_pref_joinln _ "<image>" _ (by decide)
      (fun t => by
        simp only [String.data_append]
        exact cat_not_pref 'i' 'm' _ (by decide))
  · exact no_pref_joinln _ "<item>" _ (by decide)
      (fun t => by
        simp only [String.data_append]
        exact cat_not_pref 'i' 't' _ (by decide))
  · decide

theorem channel_lines_itemfree (ch : Channel) :
    ∀ l ∈ Channel.renderLines (Channel.set_items ch []),
      ¬ (("<item>" : String).data <+: l.data) := by
  intro l hl
  simp only [Channel.set_items, Channel.renderLines, List.mem_append, List.mem_cons,
    List.mem_singleton, mem_ifSome, List.mem_map, List.map_nil, List.not_mem_nil,
    or_false, false_or, or_assoc] at hl
  rcases hl with rfl | rfl | rfl | rfl | ⟨a, -, rfl⟩ | ⟨a, -, rfl⟩ | ⟨a, -, rfl⟩ |
    ⟨a, -, rfl⟩ | ⟨a, -, rfl⟩ | ⟨a, -, rfl⟩ | ⟨a, -, rfl⟩ | ⟨a, -, rfl⟩ | ⟨a, -, rfl⟩ |
    ⟨a, -, rfl⟩ | ⟨a, -, rfl⟩ | ⟨a, -, rfl⟩ | rfl
  · decide
  · simp only [String.data_append]
    exact item_not_pref 't' 'i' _ (by decide)
  · simp only [String.data_append]
    exact item_not_pref 'l' 'i' _ (by decide)
  · simp only [String.data_append]
    exact item_not_pref 'd' 'e' _ (by decide)
  · simp only [String.data_append]
    exact item_not_pref 'l' 'a' _ (by decide)
  · simp only [String.data_append]
    exact item_not_pref 'c' 'o' _ (by decide)
  · simp only [String.data_append]
    exact item_not_pref 'm' 'a' _ (by decide)
  · simp only [String.data_append]
    exact item_not_pref 'w' 'e' _ (by decide)
  · simp only [String.data_append]
    exact item_not_pref 'p' 'u' _ (by decide)
  · simp only [String.data_append]
    exact item_not_pref 'l' 'a' _ (by decide)
  · simp only [String.data_append]
    exact item_not_pref 'g' 'e' _ (by decide)
  · simp only [String.data_append]
    exact item_not_pref 'd' 'o' _ (by decide)
  · simp only [String.data_append]
    exact item_not_pref 't' 't' _ (by decide)
  · simp only [Cloud.toMarkup, String.data_append]
    exact item_not_pref 'c' 'l' _ (by decide)
  · exact no_pref_joinln _ "<image>" _ (by decide)
      (fun t => by
        simp only [String.data_append]
        exact item_not_pref 'i' 'm' _ (by decide))
  · simp only [Category.toMarkup, String.data_append]
    exact item_not_pref 'c' 'a' _ (by decide)
  · decide

theorem cat_domain_eq (v d : String) (hd : d ≠ "") :
    Category.toMarkup { value := v, domain := some d } =
      "<category domain=\"" ++ d ++ "\">" ++ xml_escape v ++ "</category>" := by
  show "<category" ++ (if d = "" then "" else " domain=\"" ++ d ++ "\"") ++ ">" ++
      xml_escape v ++ "</category>" = _
  rw [if_neg hd]
  apply String.ext
  simp only [String.data_append, List.append_assoc, List.cons_append, List.nil_append]

/-- C1: the claim states that `Source` renders its value with XML escaping
applied exactly once, so that a value `<&>` comes out as `&lt;&amp;&gt;`.
Under the escaping contract of spec section 4.1, the code does not do
this: `Source.__str__` applies `xml_escape` twice (line 186 binds
`xml_escape(self.value)` to a local and line 187 escapes that local
again), so `<&>` renders double-escaped as `&amp;lt;&amp;amp;&amp;gt;`.
The empty-value part of the claim does hold: an empty value renders as
empty text content.  This theorem evaluates the embedded code at the
failing input. -/
theorem source_value_double_escaped :
    xml_escape "<&>" = "&lt;&amp;&gt;" ∧
    Source.toMarkup { url := "u", value := "<&>" } =
      "<source url=\"u\">&amp;lt;&amp;amp;&amp;gt;</source>" ∧
    Source.toMarkup { url := "u", value := "<&>" } ≠
      "<source url=\"u\">&lt;&amp;&gt;</source>" ∧
    Source.toMarkup { url := "u", value := "" } = "<source url=\"u\"></source>" := by
  exact ⟨rfl, rfl, by decide, rfl⟩

/-- C2: rendering a channel produces `<channel>`, then exactly the lines
whose source field is present in the fixed order title, link, description,
language, copyright, managingEditor, webMaster, pubDate, lastBuildDate,
generator, docs, ttl, cloud, image, categories in list order, items in
list order, then `</channel>`, joined by line breaks (the spec-side
renderer `Channel.specMarkup` states exactly this fragment order with
absent fragments filtered out); and the output is a function of the field
values only, so it is independent of the order in which fields were
assigned (updating `docs` before `language` or after it yields the same
record and hence the same rendering). -/
theorem channel_render_follows_spec : ∀ (c : Channel) (d lg : Option String),
    Channel.toMarkup c = Channel.specMarkup c ∧
    Channel.toMarkup { { c with docs := d } with language := lg } =
      Channel.toMarkup { { c with language := lg } with docs := d } :=
  fun c d lg => ⟨congrArg joinln (channel_lines_eq c), rfl⟩

/-- C3: rendering an item produces `<item>`, then exactly the lines whose
source field is non-null in the fixed order title, link, description,
author, comments, enclosure rendering, guid rendering, pubDate, source
rendering, then the categories in list order after all scalar and
sub-element children, then `</item>`, joined by line breaks; scalar text
content passes through `xml_escape`.  The spec-side renderer
`Item.specMarkup` states exactly this fragment order with absent fragments
filtered out. -/
theorem item_render_follows_spec : ∀ (i : Item),
    Item.toMarkup i = Item.specMarkup i :=
  fun i => congrArg joinln (item_lines_eq i)

/-- C4: a category renders with the `domain` attribute present exactly when
the field is neither null nor the empty string (the Python truthiness
check), and as `<category>VALUE</category>` with escaped value otherwise. -/
theorem category_domain_falsy : ∀ (v d : String),
    Category.toMarkup { value := v, domain := none } =
      "<category>" ++ xml_escape v ++ "</category>" ∧
    Category.toMarkup { value := v, domain := some "" } =
      "<category>" ++ xml_escape v ++ "</category>" ∧
    (d ≠ "" → Category.toMarkup { value := v, domain := some d } =
      "<category domain=\"" ++ d ++ "\">" ++ xml_escape v ++ "</category>") := by
  intro v d
  exact ⟨rfl, rfl, fun hd => cat_domain_eq v d hd⟩

/-- Witness for C4 at a concrete non-empty domain. -/
theorem category_domain_falsy_witness :
    ("somedomain" : String) ≠ "" ∧
    Category.toMarkup { value := "Val", domain := some "somedomain" } =
      "<category domain=\"" ++ "somedomain" ++ "\">" ++ xml_escape "Val" ++ "</category>" :=
  ⟨by decide, (category_domain_falsy "Val" "somedomain").2.2 (by decide)⟩

/-- C5: an image renders as `<image>`, the sub-tag lines title, url, link
in that fixed order, each present exactly when its field is non-null (an
empty string counts as present and is escaped and emitted), then
`</image>`, joined by line breaks.  The spec-side renderer
`Image.specMarkup` states exactly this filtered fragment sequence; the
second conjunct checks the empty-string case concretely. -/
theorem image_render_follows_spec : ∀ (i : Image),
    Image.toMarkup i = Image.specMarkup i ∧
    Image.toMarkup { url := none, title := some "", link := none } =
      "<image>\n<title></title>\n</image>" :=
  fun i => ⟨congrArg joinln (image_lines_eq i), rfl⟩

/-- C6: an RSS instance renders as the literal root open tag with the
fixed version attribute "2.0", a line break, the rendering of its single
channel, a line break, and the closing tag. -/
theorem rss_render_wraps_channel : ∀ (r : RSS),
    RSS.toMarkup r =
      "<rss version=\"2.0\">" ++ "\n" ++ Channel.toMarkup r.channel ++ "\n" ++ "</rss>" :=
  fun r =>
    (String.append_assoc
      ("<rss version=\"2.0\">" ++ "\n" ++ Channel.toMarkup r.channel) "\n" "</rss>").symm

/-- C7: rendering is a pure read for every element type.  Each `__str__`
body is embedded as a state transformer returning the produced string and
the receiver state; since the bodies contain no attribute assignment, the
state coming out equals the state going in, and rendering again from the
post-render state yields the same string. -/
theorem render_pure_and_repeatable : ∀ (c : Category) (cl : Cloud) (e : Enclosure)
    (g : GUID) (im : Image) (s : Source) (it : Item) (ch : Channel) (r : RSS),
    ((Category.render c).2 = c ∧
      (Category.render c).1 = (Category.render (Category.render c).2).1) ∧
    ((Cloud.render cl).2 = cl ∧
      (Cloud.render cl).1 = (Cloud.render (Cloud.render cl).2).1) ∧
    ((Enclosure.render e).2 = e ∧
      (Enclosure.render e).1 = (Enclosure.render (Enclosure.render e).2).1) ∧
    ((GUID.render g).2 = g ∧
      (GUID.render g).1 = (GUID.render (GUID.render g).2).1) ∧
    ((Image.render im).2 = im ∧
      (Image.render im).1 = (Image.render (Image.render im).2).1) ∧
    ((Source.render s).2 = s ∧
      (Source.render s).1 = (Source.render (Source.render s).2).1) ∧
    ((Item.render it).2 = it ∧
      (Item.render it).1 = (Item.render (Item.render it).2).1) ∧
    ((Channel.render ch).2 = ch ∧
      (Channel.render ch).1 = (Channel.render (Channel.render ch).2).1) ∧
    ((RSS.render r).2 = r ∧
      (RSS.render r).1 = (RSS.render (RSS.render r).2).1) := by
  intros
  exact ⟨⟨rfl, rfl⟩, ⟨rfl, rfl⟩, ⟨rfl, rfl⟩, ⟨rfl, rfl⟩, ⟨rfl, rfl⟩, ⟨rfl, rfl⟩,
    ⟨rfl, rfl⟩, ⟨rfl, rfl⟩, ⟨rfl, rfl⟩⟩

/-- C8: `set_categories` and `set_items` replace the stored list with the
received one (so with zero arguments they empty it), returning the
receiver in its post-call state; and after clearing, the line list built
by the renderer contains no line beginning with `<category` (respectively
no line beginning with `<item>`) among the fragments the receiver itself
emits. -/
theorem set_with_no_arguments_clears :
    ∀ (i : Item) (ch : Channel) (cats : List Category) (its : List Item),
    Item.set_categories i cats = { i with categories := cats } ∧
    Channel.set_categories ch cats = { ch with categories := cats } ∧
    Channel.set_items ch its = { ch with items := its } ∧
    (Item.set_categories i []).categories = [] ∧
    (Channel.set_categories ch []).categories = [] ∧
    (Channel.set_items ch []).items = [] ∧
    (∀ l ∈ Item.renderLines (Item.set_categories i []),
      ¬ (("<category" : String).data <+: l.data)) ∧
    (∀ l ∈ Channel.renderLines (Channel.set_categories ch []),
      ¬ (("<category" : String).data <+: l.data)) ∧
    (∀ l ∈ Channel.renderLines (Channel.set_items ch []),
      ¬ (("<item>" : String).data <+: l.data)) := by
  intro i ch cats its
  exact ⟨rfl, rfl, rfl, rfl, rfl, rfl, item_lines_catfree i,
    channel_lines_catfree ch, channel_lines_itemfree ch⟩

/-- Witness for C8 at a concrete item that held one category before the
clearing call: the first rendered line is a member of the cleared line
list and is not a category line. -/
theorem set_with_no_arguments_clears_witness :
    ("<item>" ∈ Item.renderLines (Item.set_categories
      { title := "T", link := "L", description := none, author := none,
        categories := [{ value := "c", domain := none }], comments := none,
        enclosure := none, guid := none, pub_date := none, source := none } [])) ∧
    ¬ (("<category" : String).data <+: ("<item>" : String).data) :=
  ⟨by decide,
    (set_with_no_arguments_clears
      { title := "T", link := "L", description := none, author := none,
        categories := [{ value := "c", domain := none }], comments := none,
        enclosure := none, guid := none, pub_date := none, source := none }
      { title := "T", link := "L", description := "D", language := none,
        copyright := none, managing_editor := none, web_master := none,
        pub_date := none, last_build_date := none, generator := some "markyp_rss",
        docs := none, cloud := none, ttl := none, image := none,
        categories := [], items := [] }
      [] []).2.2.2.2.2.2.1 "<item>" (by decide)⟩

/-- C9: `add_categories` and `add_items` with zero arguments are no-ops:
the receiver record is unchanged, hence the rendered output is unchanged,
and the returned value is that unchanged receiver. -/
theorem add_with_no_arguments_noop : ∀ (i : Item) (ch : Channel),
    Item.add_categories i [] = i ∧
    Item.toMarkup (Item.add_categories i []) = Item.toMarkup i ∧
    Channel.add_categories ch [] = ch ∧
    Channel.toMarkup (Channel.add_categories ch []) = Channel.toMarkup ch ∧
    Channel.add_items ch [] = ch ∧
    Channel.toMarkup (Channel.add_items ch []) = Channel.toMarkup ch := by
  intro i ch
  have hi : Item.add_categories i [] = i := by simp [Item.add_categories]
  have hc : Channel.add_categories ch [] = ch := by simp [Channel.add_categories]
  have ht : Channel.add_items ch [] = ch := by simp [Channel.add_items]
  exact ⟨hi, by rw [hi], hc, by rw [hc], ht, by rw [ht]⟩

/-- C10: attribute values written directly by the renderers are inserted
verbatim: the `domain` attribute of a category (when non-empty) and the
`url` attribute of a source receive the field value with no escaping, so
quotes, ampersands and angle brackets pass through unchanged, as the two
concrete conjuncts show for the value consisting of the characters
a, double quote, ampersand, less-than, b. -/
theorem attribute_values_verbatim : ∀ (u v dv d : String),
    (d ≠ "" → Category.toMarkup { value := dv, domain := some d } =
      "<category domain=\"" ++ d ++ "\">" ++ xml_escape dv ++ "</category>") ∧
    Source.toMarkup { url := u, value := v } =
      "<source url=\"" ++ u ++ "\">" ++ xml_escape (xml_escape v) ++ "</source>" ∧
    Source.toMarkup { url := "a\"&<b", value := "" } =
      "<source url=\"a\"&<b\"></source>" ∧
    Category.toMarkup { value := "V", domain := some "a\"&<b" } =
      "<category domain=\"a\"&<b\">V</category>" := by
  intro u v dv d
  exact ⟨fun hd => cat_domain_eq dv d hd, rfl, by decide, by decide⟩

/-- Witness for C10 at a concrete non-empty domain. -/
theorem attribute_values_verbatim_witness :
    ("qd" : String) ≠ "" ∧
    Category.toMarkup { value := "x", domain := some "qd" } =
      "<category domain=\"" ++ "qd" ++ "\">" ++ xml_escape "x" ++ "</category>" :=
  ⟨by decide, (attribute_values_verbatim "u" "v" "x" "qd").1 (by decide)⟩
